import Mathlib

/-!
Shallow embedding of the load-test telemetry pipeline of the Fyp-Django
repository: `locust_metrics_collector.py` (MetricsCollector) and
`locustfile.py` (PostsUser).  Effectful Python operations (OS process
reads, sqlite queries, HTTP requests, randomness, wall clocks) are
modelled as explicit inputs to pure Lean functions; each Python method
becomes a Lean function over those inputs, translated line by line from
the source.  Python `None` is `Option.none`; Python exceptions a function
catches are constructors of the corresponding input type; exceptions a
function can raise are an `Except` result.  Floats are modelled as `ℚ`
(the row values are kept numeric; the `.2f` presentation applied at CSV
serialisation time does not affect any claim below).
-/

namespace FypDjango

/-- `needle` occurs as a contiguous sublist of the argument. -/
def listContainsSub (needle : List Char) : List Char → Bool
  | [] => needle.isPrefixOf []
  | c :: cs => needle.isPrefixOf (c :: cs) || listContainsSub needle cs

/-- Substring test, modelling Python's `needle in hay` on strings. -/
def strContains (hay needle : String) : Bool :=
  listContainsSub needle.data hay.data

/-! ## Process table and target-process discovery
(`MetricsCollector._find_django_process`, locust_metrics_collector.py
lines 34-43). -/

/-- One entry of the OS process table as seen through
`psutil.process_iter(['pid','name','cmdline'])`.  `raises = true` models
the entry raising `psutil.NoSuchProcess` / `psutil.AccessDenied` when its
info is read (caught and skipped by the source).  `cmdline` is the value
of `proc.info.get('cmdline', [])`. -/
structure ProcEntry where
  pid : Nat
  cmdline : List String
  raises : Bool
deriving Repr, DecidableEq

/-- `MetricsCollector._find_django_process`: scan the process table for a
command line containing both `manage.py` and `runserver`; entries whose
info read raises are skipped; returns `none` when no entry matches. -/
def findDjangoProcess : List ProcEntry → Option Nat
  | [] => none
  | p :: ps =>
    if p.raises then findDjangoProcess ps
    else
      let joined := String.intercalate " " p.cmdline
      if p.cmdline ≠ [] ∧ strContains joined "manage.py" ∧ strContains joined "runserver"
      then some p.pid
      else findDjangoProcess ps

/-- `django_pid or self._find_django_process()` in `__init__`: a Python
`or`, so an explicit pid of `0` (falsy) also triggers auto-discovery. -/
def resolveDjangoPid (pidArg : Option Nat) (procs : List ProcEntry) : Option Nat :=
  match pidArg with
  | some p => if p ≠ 0 then some p else findDjangoProcess procs
  | none => findDjangoProcess procs

/-! ## Resource sampling (`_collect_metrics`, lines 107-120) -/

/-- What `psutil.Process(pid)` + `memory_info` / `memory_percent` /
`cpu_percent` yield for a live, accessible process. -/
structure ProcSample where
  rssBytes : Nat
  memoryPercent : ℚ
  cpuPercent : ℚ
deriving Repr, DecidableEq

/-- Result of reading the target process's metrics: the two psutil
exception classes the source catches, or a successful sample. -/
inductive ProcReadResult where
  | noSuchProcess
  | accessDenied
  | ok (s : ProcSample)
deriving Repr, DecidableEq

/-- The resource-sampling fragment of `_collect_metrics`: memory MB,
memory percent, CPU percent.  All three start at 0; they are overwritten
only when `self.django_pid` is truthy (non-`None` and non-zero) and the
psutil reads succeed; `NoSuchProcess` / `AccessDenied` are caught and
leave the zeros in place.  `rss` is converted to MB by dividing by
`1024 * 1024`. -/
def sampleResources (pid : Option Nat) (read : Nat → ProcReadResult) : ℚ × ℚ × ℚ :=
  match pid with
  | none => (0, 0, 0)
  | some p =>
    if p = 0 then (0, 0, 0)
    else
      match read p with
      | .noSuchProcess => (0, 0, 0)
      | .accessDenied => (0, 0, 0)
      | .ok s => ((s.rssBytes : ℚ) / (1024 * 1024), s.memoryPercent, s.cpuPercent)

/-! ## Database row count (`_get_total_posts`, lines 159-174) -/

/-- The state the sqlite datastore presents to one invocation of
`_get_total_posts`: the db file may be missing (`os.path.exists` false),
the connect/query may raise (locked file, schema mismatch, any other
exception — all caught by the bare `except Exception`), or the
`SELECT COUNT(*) FROM books_post` query succeeds with a row count. -/
inductive DbState where
  | missing
  | error (e : String)
  | ok (count : Nat)
deriving Repr, DecidableEq

/-- `MetricsCollector._get_total_posts`: returns the row count on
success and `0` both when the db file is missing and when any exception
is raised; the `try`/`except Exception` means it never raises. -/
def getTotalPosts : DbState → Nat
  | .missing => 0
  | .error _ => 0
  | .ok n => n

/-! ## Locust stats snapshot (`_get_locust_stats`, lines 140-157) -/

/-- A point-in-time read of the traffic generator's counters. -/
structure TrafficStats where
  activeUsers : Nat
  totalRequests : Nat
  rps : ℚ
deriving Repr, DecidableEq

/-- What the environment presents to one `_get_locust_stats` call:
no usable environment/stats attribute, an exception during the reads, or
a successful snapshot (with `active_users` already 0 when the runner is
absent, as in the source's inner `hasattr` guards). -/
inductive StatsInput where
  | unavailable
  | raised (e : String)
  | ok (s : TrafficStats)
deriving Repr, DecidableEq

/-- `MetricsCollector._get_locust_stats`: returns the snapshot when the
reads succeed, and the zero defaults `{'active_users': 0,
'total_requests': 0, 'rps': 0}` both when the environment/stats are
unavailable and when an exception is raised (caught by `except`). -/
def getLocustStats : StatsInput → TrafficStats
  | .unavailable => ⟨0, 0, 0⟩
  | .raised _ => ⟨0, 0, 0⟩
  | .ok s => s

/-! ## Collector state and the per-tick write (`_collect_metrics`) -/

/-- One row written by `csv_writer.writerow` in `_collect_metrics`,
with numeric fields kept as the numbers being formatted. -/
structure MetricRow where
  timestamp : String
  elapsed : ℚ
  activeUsers : Nat
  totalRequests : Nat
  rps : ℚ
  memoryMB : ℚ
  memoryPercent : ℚ
  cpuPercent : ℚ
  totalPosts : Nat
deriving Repr, DecidableEq

/-- The header row written first in `on_test_start` (lines 56-66). -/
def metricsHeader : List String :=
  ["Timestamp", "Elapsed_Time_Seconds", "Active_Users", "Total_Requests",
   "Requests_Per_Second", "Memory_Usage_MB", "Memory_Percent", "CPU_Percent",
   "Total_Posts_In_DB"]

/-- The open CSV log file: its path, the header written at creation, the
data rows appended after it (the header is always the first row written),
and whether `close()` has been called. -/
structure LogFile where
  name : String
  header : List String
  rows : List MetricRow
  closed : Bool
deriving Repr, DecidableEq

/-- The mutable attributes of a `MetricsCollector`.  `file = none` models
`self.metrics_file is None and self.csv_writer is None` (the two are set
and tested together in the source). -/
structure CollectorState where
  djangoPid : Option Nat
  outputDir : String
  file : Option LogFile
  startTime : Option ℚ
  running : Bool
deriving Repr, DecidableEq

/-- `MetricsCollector.__init__` (lines 17-25): resolve the pid, record
the output dir, leave the file/writer unset, `start_time = None`,
`running = False`. -/
def initCollector (pidArg : Option Nat) (outputDir : String) (procs : List ProcEntry) :
    CollectorState :=
  { djangoPid := resolveDjangoPid pidArg procs
    outputDir := outputDir
    file := none
    startTime := none
    running := false }

/-- The external inputs consumed by one tick of the sampling loop:
a formatted wall-clock string, the `time.time()` reading, the stats
snapshot, the psutil read oracle, the datastore state, and `ioError`
modelling an exception raised by the CSV write/flush itself (the only
operations of `_collect_metrics` whose failure is not caught inside it). -/
structure TickInput where
  nowStr : String
  nowT : ℚ
  stats : StatsInput
  procRead : Nat → ProcReadResult
  db : DbState
  ioError : Option String

/-- The row `_collect_metrics` assembles for one tick: elapsed time
(`time.time() - self.start_time if self.start_time else 0`), the stats
snapshot, the resource sample for `self.django_pid`, and the db count. -/
def tickRow (st : CollectorState) (t : TickInput) : MetricRow :=
  let stats := getLocustStats t.stats
  let res := sampleResources st.djangoPid t.procRead
  { timestamp := t.nowStr
    elapsed :=
      match st.startTime with
      | some t0 => t.nowT - t0
      | none => 0
    activeUsers := stats.activeUsers
    totalRequests := stats.totalRequests
    rps := stats.rps
    memoryMB := res.1
    memoryPercent := res.2.1
    cpuPercent := res.2.2
    totalPosts := getTotalPosts t.db }

/-- `MetricsCollector._collect_metrics` (lines 93-138), the non-raising
path: return unchanged when no writer is open, else assemble one row from
the stats snapshot, the resource sample and the db count, and append it. -/
def collectMetrics (st : CollectorState) (t : TickInput) : CollectorState :=
  match st.file with
  | none => st
  | some f => { st with file := some { f with rows := f.rows ++ [tickRow st t] } }

/-- `_collect_metrics` as the loop sees it: it may raise (modelled by
`t.ioError`, an exception from the CSV write — only reachable when a file
is open, since the method returns before writing otherwise). -/
def collectMetricsTick (st : CollectorState) (t : TickInput) :
    Except String CollectorState :=
  match st.file with
  | none => .ok st
  | some _ =>
    match t.ioError with
    | some e => .error e
    | none => .ok (collectMetrics st t)

/-- One iteration of `_collect_metrics_loop` (lines 83-91): the
`try`/`except Exception` around `self._collect_metrics()` catches any
exception, prints it, and continues with the state unchanged. -/
def collectLoopStep (st : CollectorState) (t : TickInput) : CollectorState :=
  match collectMetricsTick st t with
  | .ok st2 => st2
  | .error _ => st

/-- `MetricsCollector._collect_metrics_loop`: the `while self.running`
loop, applied to the sequence of ticks executed while the recorder is in
the Recording state. -/
def collectMetricsLoop (st : CollectorState) (ticks : List TickInput) : CollectorState :=
  ticks.foldl collectLoopStep st

/-! ## Lifecycle (`on_test_start` lines 50-67, `on_test_stop` lines 76-81) -/

/-- `MetricsCollector.on_test_start`: record the start time, set
`running`, open one CSV file named
`{output_dir}/metrics_memory_scalability_{timestamp}.csv` where
`timestamp` is the formatted start instant, and write the header row
first (the data-row list starts empty). -/
def onTestStart (st : CollectorState) (timestamp : String) (now : ℚ) : CollectorState :=
  { st with
    startTime := some now
    running := true
    file := some
      { name := st.outputDir ++ "/metrics_memory_scalability_" ++ timestamp ++ ".csv"
        header := metricsHeader
        rows := []
        closed := false } }

/-- `MetricsCollector.on_test_stop`: clear `running`; close the file if
one is open (`if self.metrics_file:`), else do nothing. -/
def onTestStop (st : CollectorState) : CollectorState :=
  { st with
    running := false
    file := match st.file with
      | none => none
      | some f => some { f with closed := true } }

/-- The data rows currently in the collector's log ([] when no file). -/
def logRows (st : CollectorState) : List MetricRow :=
  match st.file with
  | none => []
  | some f => f.rows

/-! ## Virtual user sessions (`locustfile.py`, class PostsUser) -/

/-- An HTTP response as the locust tasks observe it: the status code,
the `href` attributes of the page's `<a>` tags (an anchor may lack an
`href`, hence `Option`), the CSRF hidden form input
(`none` = no such `<input>`; `some v` = input present with value
attribute `v`, itself optional), and the `csrftoken` cookie. -/
structure HttpResponse where
  status : Nat
  anchors : List (Option String)
  formInput : Option (Option String)
  cookieToken : Option String
deriving Repr, DecidableEq

/-- `PostsUser.get_csrf_token` (lines 44-50): if the hidden input is in
the page, return its `value` attribute (which may be Python `None`);
otherwise return the `csrftoken` cookie with default `''`. -/
def getCsrfToken (resp : HttpResponse) : Option String :=
  match resp.formInput with
  | some v => v
  | none => some (resp.cookieToken.getD "")

/-- The caller pattern around `get_csrf_token` in the create/update/
delete tasks: `if not csrf_token: csrf_token =
form_response.cookies.get('csrftoken', '')` — a Python-falsy token
(`None` or `''`) is replaced by the cookie value (default `''`). -/
def tokenOrCookie (resp : HttpResponse) : String :=
  match getCsrfToken resp with
  | some v => if v = "" then resp.cookieToken.getD "" else v
  | none => resp.cookieToken.getD ""

/-- The alphabet `string.ascii_letters + string.digits` used by
`generate_random_string` (62 characters). -/
def randomAlphabet : List Char :=
  "abcdefghijklmnopqrstuvwxyzABCDEFGHIJKLMNOPQRSTUVWXYZ0123456789".data

/-- `PostsUser.generate_random_string` (lines 52-54):
`''.join(random.choices(ascii_letters + digits, k=length))`.  The
randomness of one `choices` call is an oracle `pick` giving the alphabet
index chosen at each of the `k` positions. -/
def generateRandomString (pick : Nat → Fin 62) (k : Nat) : String :=
  ⟨(List.range k).map (fun i => randomAlphabet.get (Fin.cast (by decide) (pick i)))⟩

/-- One HTTP request a task issues, with the form data of a POST. -/
inductive HttpAction where
  | get (path : String)
  | post (path : String) (formData : List (String × String))
deriving Repr, DecidableEq

/-- The explicit outcome reported through `response.success()` /
`response.failure(reason)` inside a `catch_response` block. -/
inductive Outcome where
  | success
  | failure (reason : String)
deriving Repr, DecidableEq

/-- One task execution: the requests it issued, in order, and the
explicit success/failure report of its `catch_response` block
(`none` when the task returned without reaching that block). -/
structure TaskRun where
  actions : List HttpAction
  outcome : Option Outcome
deriving Repr, DecidableEq

/-- `PostsUser.on_start` (lines 25-42): GET the listing page; on a 200,
take the hidden form input's value if the input exists (even when its
value attribute is Python `None`), else the `csrftoken` cookie with
default `''`; on any other status set the token to `''`.  Then
initialise the created-post list to empty. -/
structure SessionState where
  csrfToken : Option String
  createdPostIds : List String
deriving Repr, DecidableEq

/-- The state `on_start` leaves the session in, as a function of the
listing response.  `csrfToken = some s` models the Python string `s`;
`csrfToken = none` models Python `None` (a present input with no value
attribute). -/
def onStart (resp : HttpResponse) : SessionState :=
  if resp.status = 200 then
    { csrfToken :=
        match resp.formInput with
        | some v => v
        | none => some (resp.cookieToken.getD "")
      createdPostIds := [] }
  else
    { csrfToken := some "", createdPostIds := [] }

/-- `PostsUser.create_post` (lines 70-101): GET the create form, derive
a token, build `Test Post {rand8}` / `Author {rand6}`, POST the form,
and report success iff the POST status is 200 or 302, else failure with
reason `Failed to create post: {status}`. -/
def createPost (formResp : HttpResponse) (postStatus : Nat)
    (pick8 pick6 : Nat → Fin 62) : TaskRun :=
  let csrf := tokenOrCookie formResp
  let title := "Test Post " ++ generateRandomString pick8 8
  let author := "Author " ++ generateRandomString pick6 6
  { actions :=
      [.get "/posts/create/",
       .post "/posts/create/"
         [("title", title), ("author", author), ("csrfmiddlewaretoken", csrf)]]
    outcome := some
      (if postStatus = 200 ∨ postStatus = 302 then .success
       else .failure ("Failed to create post: " ++ toString postStatus)) }

/-- The link discovery of `update_post`:
`soup.find_all('a', href=lambda x: x and '/posts/update/' in x)` followed
by `.get('href')` — the hrefs of the anchors whose href is present,
non-empty and contains `/posts/update/`. -/
def updateLinksOf (anchors : List (Option String)) : List String :=
  anchors.filterMap fun h =>
    match h with
    | some s => if s ≠ "" ∧ strContains s "/posts/update/" then some s else none
    | none => none

/-- `url.split('/')[-2]`: the second-to-last segment of a slash-split.
(Python raises on fewer than two parts; every url reaching this point
contains `/posts/update/`, hence at least four slashes, so that branch
is unreachable and the model's total default is never consulted.) -/
def secondToLastSegment (url : String) : String :=
  let parts := url.splitOn "/"
  parts.getD (parts.length - 2) ""

/-- `PostsUser.update_post` (lines 103-155): GET the listing; on a
non-200, return.  Filter the page's links for the update route; when
none match, return (no POST, no report).  Otherwise take the first
link's id segment (returning if it is empty), GET that entity's edit
form, derive a token, POST `Updated Post {rand8}` /
`Updated Author {rand6}`, and report success iff the POST status is 200
or 302, else failure with reason `Failed to update post: {status}`.
`formResp` is the response of the edit-form GET. -/
def updatePost (listResp formResp : HttpResponse) (postStatus : Nat)
    (pick8 pick6 : Nat → Fin 62) : TaskRun :=
  if listResp.status ≠ 200 then { actions := [.get "/posts/"], outcome := none }
  else
    match updateLinksOf listResp.anchors with
    | [] => { actions := [.get "/posts/"], outcome := none }
    | url :: _ =>
      let postId := secondToLastSegment url
      if postId = "" then { actions := [.get "/posts/"], outcome := none }
      else
        let path := "/posts/update/" ++ postId ++ "/"
        let csrf := tokenOrCookie formResp
        let title := "Updated Post " ++ generateRandomString pick8 8
        let author := "Updated Author " ++ generateRandomString pick6 6
        { actions :=
            [.get "/posts/", .get path,
             .post path
               [("title", title), ("author", author), ("csrfmiddlewaretoken", csrf)]]
          outcome := some
            (if postStatus = 200 ∨ postStatus = 302 then .success
             else .failure ("Failed to update post: " ++ toString postStatus)) }

/-- A task run issued a POST request. -/
def TaskRun.hasPost (r : TaskRun) : Bool :=
  r.actions.any fun a =>
    match a with
    | .post _ _ => true
    | .get _ => false

/-! ## Derived notions used by the verification statements -/

/-- A list of naturals is non-decreasing from each element to the next. -/
def nonDecreasing : List Nat → Bool
  | [] => true
  | [_] => true
  | a :: b :: rest => decide (a ≤ b) && nonDecreasing (b :: rest)

/-- The Total_Requests value `_collect_metrics` records at a tick: the
stats snapshot's counter, 0 when the read is unavailable or raises. -/
def statsTotal (t : TickInput) : Nat :=
  (getLocustStats t.stats).totalRequests

/-- The header as the specification's output-log section words it, with
`Total_Entities_In_DB` as the last column name; to be compared with the
source's `metricsHeader`. -/
def specWordedHeader : List String :=
  ["Timestamp", "Elapsed_Time_Seconds", "Active_Users", "Total_Requests",
   "Requests_Per_Second", "Memory_Usage_MB", "Memory_Percent", "CPU_Percent",
   "Total_Entities_In_DB"]

/-! ## Concrete inputs used to exercise the definitions -/

/-- A freshly opened log file with no data rows. -/
def sampleFile : LogFile :=
  { name := "results/metrics_memory_scalability_20250101_000000.csv"
    header := metricsHeader
    rows := []
    closed := false }

/-- A recording collector whose target pid is unresolved. -/
def sampleState : CollectorState :=
  { djangoPid := none, outputDir := "results", file := some sampleFile,
    startTime := some 0, running := true }

/-- A tick whose stats read succeeds with 5 total requests. -/
def tickOk5 : TickInput :=
  { nowStr := "2025-01-01 00:00:01", nowT := 1, stats := .ok ⟨2, 5, 0⟩,
    procRead := fun _ => .noSuchProcess, db := .ok 3, ioError := none }

/-- A tick whose stats read raises (recorded with the zero defaults). -/
def tickRaised : TickInput :=
  { nowStr := "2025-01-01 00:00:02", nowT := 2, stats := .raised "stats read failed",
    procRead := fun _ => .noSuchProcess, db := .ok 3, ioError := none }

/-- A tick whose stats read succeeds with 7 total requests. -/
def tickOk7 : TickInput :=
  { nowStr := "2025-01-01 00:00:02", nowT := 2, stats := .ok ⟨2, 7, 0⟩,
    procRead := fun _ => .noSuchProcess, db := .ok 4, ioError := none }

/-- A tick whose CSV write raises. -/
def tickWriteFails : TickInput :=
  { nowStr := "2025-01-01 00:00:03", nowT := 3, stats := .ok ⟨2, 9, 0⟩,
    procRead := fun _ => .noSuchProcess, db := .ok 4, ioError := some "disk full" }

/-- A randomness oracle that always picks alphabet index 0 (`a`). -/
def pickZero : Nat → Fin 62 := fun _ => 0

/-- A listing response whose page has anchors, none of them matching the
update route (as rendered when only delete links, or no posts, exist). -/
def listRespNoUpdate : HttpResponse :=
  { status := 200, anchors := [some "/posts/delete/4/", none, some ""],
    formInput := none, cookieToken := some "ck" }

/-- A create/update form response carrying a hidden CSRF input. -/
def formRespTok : HttpResponse :=
  { status := 200, anchors := [], formInput := some (some "tok"),
    cookieToken := none }

/-- A listing response that failed with a 500. -/
def listResp500 : HttpResponse :=
  { status := 500, anchors := [some "/posts/update/3/"],
    formInput := some (some "tok"), cookieToken := some "ck" }

/-! ## Helper lemmas about the sampling loop -/

theorem collectLoopStep_of_ok (st : CollectorState) (f : LogFile) (t : TickInput)
    (hf : st.file = some f) (hio : t.ioError = none) :
    collectLoopStep st t =
      { st with file := some { f with rows := f.rows ++ [tickRow st t] } } := by
  simp [collectLoopStep, collectMetricsTick, collectMetrics, hf, hio]

theorem collectLoopStep_of_ioError (st : CollectorState) (t : TickInput) (e : String)
    (hio : t.ioError = some e) : collectLoopStep st t = st := by
  cases hf : st.file <;> simp [collectLoopStep, collectMetricsTick, hf, hio]

theorem collectLoopStep_djangoPid (st : CollectorState) (t : TickInput) :
    (collectLoopStep st t).djangoPid = st.djangoPid := by
  cases hf : st.file <;> cases hio : t.ioError <;>
    simp [collectLoopStep, collectMetricsTick, collectMetrics, hf, hio]

theorem collectMetricsLoop_cons (st : CollectorState) (t : TickInput)
    (ticks : List TickInput) :
    collectMetricsLoop st (t :: ticks) = collectMetricsLoop (collectLoopStep st t) ticks :=
  rfl

/-- The loop processes every tick of an error-free trace, appending the
tick's row each time; the file's identity and header are untouched. -/
theorem collectLoop_run_ok (ticks : List TickInput) :
    ∀ (st : CollectorState) (f : LogFile), st.file = some f →
      (∀ t ∈ ticks, t.ioError = none) →
      collectMetricsLoop st ticks =
        { st with file := some { f with rows := f.rows ++ ticks.map (tickRow st) } } := by
  induction ticks with
  | nil =>
    intro st f hf _
    simp only [collectMetricsLoop, List.foldl_nil, List.map_nil, List.append_nil]
    rw [← hf]
  | cons t ts ih =>
    intro st f hf hio
    rw [collectMetricsLoop_cons,
        collectLoopStep_of_ok st f t hf (hio t (List.mem_cons_self t ts)),
        ih _ _ rfl (fun u hu => hio u (List.mem_cons_of_mem t hu))]
    simp only [List.map_cons, List.append_assoc, List.singleton_append]
    rfl

/-- Each tick increments the row count by one unless its write raises;
the file always survives the tick. -/
theorem collectLoop_rows_length (ticks : List TickInput) :
    ∀ (st : CollectorState) (f : LogFile), st.file = some f →
      ∃ g, (collectMetricsLoop st ticks).file = some g ∧
        g.rows.length = f.rows.length + ticks.countP (fun t => t.ioError.isNone) := by
  induction ticks with
  | nil => intro st f hf; exact ⟨f, hf, by simp⟩
  | cons t ts ih =>
    intro st f hf
    rw [collectMetricsLoop_cons]
    cases hio : t.ioError with
    | some e =>
      rw [collectLoopStep_of_ioError st t e hio]
      obtain ⟨g, hg, hlen⟩ := ih st f hf
      exact ⟨g, hg, by simp [List.countP_cons, hio, hlen]⟩
    | none =>
      rw [collectLoopStep_of_ok st f t hf hio]
      obtain ⟨g, hg, hlen⟩ :=
        ih { st with file := some { f with rows := f.rows ++ [tickRow st t] } }
          { f with rows := f.rows ++ [tickRow st t] } rfl
      refine ⟨g, hg, ?_⟩
      simp only [List.length_append, List.length_cons, List.length_nil] at hlen
      simp [List.countP_cons, hio, hlen]
      omega

/-- Every row in the log after the loop was either there before or was
appended by a tick from a state with the same (never-modified) pid. -/
theorem loop_rows_zeroRes (ticks : List TickInput) :
    ∀ st : CollectorState, st.djangoPid = none →
      ∀ r ∈ logRows (collectMetricsLoop st ticks),
        r ∈ logRows st ∨ (r.memoryMB = 0 ∧ r.memoryPercent = 0 ∧ r.cpuPercent = 0) := by
  induction ticks with
  | nil => intro st _ r hr; exact Or.inl hr
  | cons t ts ih =>
    intro st hpid r hr
    rw [collectMetricsLoop_cons] at hr
    have hpid2 : (collectLoopStep st t).djangoPid = none := by
      rw [collectLoopStep_djangoPid]; exact hpid
    rcases ih _ hpid2 r hr with hin | hz
    · cases hf : st.file with
      | none =>
        left
        simpa [collectLoopStep, collectMetricsTick, hf] using hin
      | some f =>
        cases hio : t.ioError with
        | some e =>
          left
          rwa [collectLoopStep_of_ioError st t e hio] at hin
        | none =>
          rw [collectLoopStep_of_ok st f t hf hio] at hin
          simp only [logRows, List.mem_append, List.mem_singleton] at hin
          rcases hin with hin | hrow
          · left; simpa [logRows, hf] using hin
          · right
            subst hrow
            simp [tickRow, sampleResources, hpid]
    · exact Or.inr hz

/-! ## Claim theorems -/

/-- C1: when the target pid is unresolved, or the target process has
exited (`NoSuchProcess`), or access is denied, the sampler returns
zeroed memory-MB / memory-percent / CPU-percent values without raising;
consequently, when resolution fails (`django_pid = None`), every row the
recording loop writes has zero memory/CPU fields and the loop runs to
completion over all its ticks. -/
theorem c1_resolution_failure_zeroes_resources (st : CollectorState)
    (ticks : List TickInput) (hpid : st.djangoPid = none) :
    (∀ read, sampleResources none read = (0, 0, 0)) ∧
    (∀ p read, read p = ProcReadResult.noSuchProcess →
        sampleResources (some p) read = (0, 0, 0)) ∧
    (∀ p read, read p = ProcReadResult.accessDenied →
        sampleResources (some p) read = (0, 0, 0)) ∧
    (∀ r ∈ logRows (collectMetricsLoop st ticks),
        r ∈ logRows st ∨
          (r.memoryMB = 0 ∧ r.memoryPercent = 0 ∧ r.cpuPercent = 0)) := by
  refine ⟨fun _ => rfl, ?_, ?_, loop_rows_zeroRes ticks st hpid⟩
  · intro p read h
    by_cases hp : p = 0 <;> simp [sampleResources, hp, h]
  · intro p read h
    by_cases hp : p = 0 <;> simp [sampleResources, hp, h]

/-- Witness for C1 at a concrete unresolved-pid collector and a
concrete tick trace. -/
theorem c1_zeroed_witness :
    sampleResources none (fun _ => ProcReadResult.ok ⟨2097152, 3, 4⟩) = (0, 0, 0) ∧
    sampleResources (some 7) (fun _ => ProcReadResult.noSuchProcess) = (0, 0, 0) ∧
    sampleResources (some 7) (fun _ => ProcReadResult.accessDenied) = (0, 0, 0) ∧
    ((tickRow sampleState tickOk5).memoryMB = 0 ∧
     (tickRow sampleState tickOk5).memoryPercent = 0 ∧
     (tickRow sampleState tickOk5).cpuPercent = 0) := by
  have h := c1_resolution_failure_zeroes_resources sampleState [tickOk5] rfl
  refine ⟨h.1 _, h.2.1 7 _ rfl, h.2.2.1 7 _ rfl, ?_⟩
  have hm : tickRow sampleState tickOk5 ∈
      logRows (collectMetricsLoop sampleState [tickOk5]) :=
    List.mem_cons_self _ _
  rcases h.2.2.2 _ hm with hin | hz
  · exact absurd hin (List.not_mem_nil _)
  · exact hz

/-- C2: an exception raised inside one tick of the recording loop is
caught there (the state is left unchanged) and never aborts the loop:
over any trace of ticks the loop processes every tick, the log file
survives, and exactly the non-raising ticks contribute rows. -/
theorem c2_tick_errors_never_abort_loop (st : CollectorState) (f : LogFile)
    (ticks : List TickInput) (hf : st.file = some f) :
    (∀ (s : CollectorState) (u : TickInput) (e : String),
        collectMetricsTick s u = Except.error e → collectLoopStep s u = s) ∧
    ∃ g, (collectMetricsLoop st ticks).file = some g ∧
      g.rows.length = f.rows.length + ticks.countP (fun t => t.ioError.isNone) := by
  refine ⟨?_, collectLoop_rows_length ticks st f hf⟩
  intro s u e h
  simp [collectLoopStep, h]

/-- Witness for C2: a trace whose middle tick raises still yields a log
with one row per non-raising tick. -/
theorem c2_tick_errors_witness :
    collectLoopStep sampleState tickWriteFails = sampleState ∧
    ∃ g, (collectMetricsLoop sampleState [tickOk5, tickWriteFails, tickOk7]).file
        = some g ∧ g.rows.length = 2 := by
  have h := c2_tick_errors_never_abort_loop sampleState sampleFile
    [tickOk5, tickWriteFails, tickOk7] rfl
  refine ⟨h.1 sampleState tickWriteFails "disk full" rfl, ?_⟩
  obtain ⟨g, hg, hlen⟩ := h.2
  exact ⟨g, hg, by rw [hlen]; decide⟩

/-- C3: when the listing page contains no update-route links, the update
task issues no POST and reports neither success nor failure — it
returns before reaching the mutation block. -/
theorem c3_update_skips_without_links (listResp formResp : HttpResponse)
    (postStatus : Nat) (pick8 pick6 : Nat → Fin 62)
    (h : updateLinksOf listResp.anchors = []) :
    (updatePost listResp formResp postStatus pick8 pick6).hasPost = false ∧
    (updatePost listResp formResp postStatus pick8 pick6).outcome = none := by
  by_cases hs : listResp.status = 200 <;>
    simp [updatePost, hs, h, TaskRun.hasPost]

/-- Witness for C3 at a listing page holding only a delete link, an
anchor without href and an empty href. -/
theorem c3_update_skip_witness :
    (updatePost listRespNoUpdate formRespTok 302 pickZero pickZero).hasPost = false ∧
    (updatePost listRespNoUpdate formRespTok 302 pickZero pickZero).outcome = none :=
  c3_update_skips_without_links listRespNoUpdate formRespTok 302 pickZero pickZero
    (by decide)

/-- C4 counterexample: a create POST answered 500 is reported as failure
whose reason string is `Failed to create post: 500`, not the bare
string `500` the claim states. -/
theorem c4_reason_counterexample :
    (createPost formRespTok 500 pickZero pickZero).outcome
        = some (Outcome.failure "Failed to create post: 500") ∧
    (createPost formRespTok 500 pickZero pickZero).outcome
        ≠ some (Outcome.failure "500") := by decide

/-- C4 (amended): the create task reports success iff the POST status is
200 or 302; a 302 is success, and a 500 is failure with reason
`Failed to create post: 500` — a string containing `500`. -/
theorem c4_create_outcome_by_status (formResp : HttpResponse) (postStatus : Nat)
    (pick8 pick6 : Nat → Fin 62) :
    ((createPost formResp postStatus pick8 pick6).outcome = some Outcome.success ↔
      postStatus = 200 ∨ postStatus = 302) ∧
    (createPost formResp 302 pick8 pick6).outcome = some Outcome.success ∧
    (createPost formResp 500 pick8 pick6).outcome
        = some (Outcome.failure "Failed to create post: 500") ∧
    strContains "Failed to create post: 500" "500" = true := by
  refine ⟨?_, by simp [createPost], rfl, by decide⟩
  by_cases h : postStatus = 200 ∨ postStatus = 302 <;> simp [createPost, h]

/-- C5: the db row-count read returns the count on success and 0 both
when the db file is missing and when any exception is raised; it is a
total function of the datastore state, so it never raises. -/
theorem c5_total_posts_zero_on_failure :
    getTotalPosts DbState.missing = 0 ∧
    (∀ e, getTotalPosts (DbState.error e) = 0) ∧
    (∀ n, getTotalPosts (DbState.ok n) = n) :=
  ⟨rfl, fun _ => rfl, fun _ => rfl⟩

/-- C6: `stop()` before `start()` is a no-op: on a freshly initialised
collector (no file, not running, no start time) `on_test_stop` closes
nothing, writes nothing, and returns the state unchanged. -/
theorem c6_stop_before_start_noop (pidArg : Option Nat) (dir : String)
    (procs : List ProcEntry) :
    onTestStop (initCollector pidArg dir procs) = initCollector pidArg dir procs :=
  rfl

/-- C7 counterexample: a tick whose stats read raises records the zero
defaults, so a run reading 5 total requests and then failing logs the
Total_Requests column [5, 0], which is not non-decreasing. -/
theorem c7_monotonicity_counterexample :
    (logRows (collectMetricsLoop sampleState [tickOk5, tickRaised])).map
        MetricRow.totalRequests = [5, 0] ∧
    nonDecreasing ((logRows (collectMetricsLoop sampleState [tickOk5, tickRaised])).map
        MetricRow.totalRequests) = false := by decide

/-- C7 (amended): each logged Total_Requests equals that tick's stats
snapshot value (0 when the read is unavailable or raises); hence over a
run in which no tick's write raises, the column is non-decreasing
whenever the per-tick snapshot values are — in particular whenever every
stats read succeeds on a non-decreasing counter. -/
theorem c7_total_requests_from_snapshots (st : CollectorState) (f : LogFile)
    (ticks : List TickInput) (hf : st.file = some f) (hempty : f.rows = [])
    (hio : ∀ t ∈ ticks, t.ioError = none) :
    (logRows (collectMetricsLoop st ticks)).map MetricRow.totalRequests
        = ticks.map statsTotal ∧
    (nonDecreasing (ticks.map statsTotal) = true →
      nonDecreasing ((logRows (collectMetricsLoop st ticks)).map
        MetricRow.totalRequests) = true) := by
  have h := collectLoop_run_ok ticks st f hf hio
  have hmap : (logRows (collectMetricsLoop st ticks)).map MetricRow.totalRequests
      = ticks.map statsTotal := by
    rw [h]
    simp [logRows, hempty, List.map_map]
    exact fun a _ => rfl
  exact ⟨hmap, fun hm => by rwa [hmap]⟩

/-- Witness for C7 (amended) at a two-tick run with successful stats
reads of 5 then 7 requests. -/
theorem c7_total_requests_witness :
    (logRows (collectMetricsLoop sampleState [tickOk5, tickOk7])).map
        MetricRow.totalRequests = [tickOk5, tickOk7].map statsTotal ∧
    nonDecreasing ((logRows (collectMetricsLoop sampleState [tickOk5, tickOk7])).map
        MetricRow.totalRequests) = true := by
  have h := c7_total_requests_from_snapshots sampleState sampleFile
    [tickOk5, tickOk7] rfl rfl (by decide)
  exact ⟨h.1, h.2 (by decide)⟩

/-- C8 counterexample: the header the source writes ends in
`Total_Posts_In_DB`, not the `Total_Entities_In_DB` of the claim. -/
theorem c8_header_counterexample :
    ((onTestStart (initCollector none "results" []) "20250101_000000" 0).file.map
        LogFile.header) = some metricsHeader ∧
    metricsHeader ≠ specWordedHeader := by decide

/-- C8 (amended): each `on_test_start` opens exactly one log file, named
`{output_dir}/metrics_memory_scalability_{start timestamp}.csv`, whose
first row is the comma-separated header `Timestamp, ...,
Total_Posts_In_DB` (the data-row list starts empty). -/
theorem c8_one_file_with_header (st : CollectorState) (ts : String) (now : ℚ) :
    (onTestStart st ts now).file = some
      { name := st.outputDir ++ "/metrics_memory_scalability_" ++ ts ++ ".csv"
        header := metricsHeader
        rows := []
        closed := false } ∧
    (onTestStart st ts now).startTime = some now ∧
    (onTestStart st ts now).running = true :=
  ⟨rfl, rfl, rfl⟩

/-- C9 counterexample: the create task POSTs title
`Test Post aaaaaaaa` (18 characters, containing spaces) under the
all-zeros randomness oracle — not an 8-character alphanumeric string. -/
theorem c9_title_counterexample :
    (createPost formRespTok 302 pickZero pickZero).actions =
      [HttpAction.get "/posts/create/",
       HttpAction.post "/posts/create/"
         [("title", "Test Post aaaaaaaa"), ("author", "Author aaaaaa"),
          ("csrfmiddlewaretoken", "tok")]] ∧
    ("Test Post aaaaaaaa").length ≠ 8 ∧ ("Author aaaaaa").length ≠ 6 := by decide

/-- C9 (amended): the submitted title is `Test Post ` followed by a
random 8-character string over the 62-letter alphanumeric alphabet, and
the author is `Author ` followed by such a 6-character string. -/
theorem c9_random_fields_shape (formResp : HttpResponse) (postStatus : Nat)
    (pick8 pick6 : Nat → Fin 62) :
    (createPost formResp postStatus pick8 pick6).actions =
      [HttpAction.get "/posts/create/",
       HttpAction.post "/posts/create/"
         [("title", "Test Post " ++ generateRandomString pick8 8),
          ("author", "Author " ++ generateRandomString pick6 6),
          ("csrfmiddlewaretoken", tokenOrCookie formResp)]] ∧
    (generateRandomString pick8 8).length = 8 ∧
    (generateRandomString pick6 6).length = 6 ∧
    (∀ c ∈ (generateRandomString pick8 8).data, c ∈ randomAlphabet) ∧
    (∀ c ∈ (generateRandomString pick6 6).data, c ∈ randomAlphabet) := by
  refine ⟨rfl, ?_, ?_, ?_, ?_⟩
  · simp [generateRandomString, String.length]
  · simp [generateRandomString, String.length]
  · intro c hc
    simp only [generateRandomString, List.mem_map] at hc
    obtain ⟨i, _, hi⟩ := hc
    exact hi ▸ List.get_mem _ _ _
  · intro c hc
    simp only [generateRandomString, List.mem_map] at hc
    obtain ⟨i, _, hi⟩ := hc
    exact hi ▸ List.get_mem _ _ _

/-- C10: a session whose startup GET of the listing returns non-200 sets
its CSRF token to the empty string and still initialises with an empty
created-ids list; `on_start` is total, so startup never raises. -/
theorem c10_session_startup_non200 (resp : HttpResponse) (h : resp.status ≠ 200) :
    onStart resp = { csrfToken := some "", createdPostIds := [] } := by
  simp [onStart, h]

/-- Witness for C10 at a 500 listing response that even carries a token
in its page and cookies. -/
theorem c10_session_startup_witness :
    onStart listResp500 = { csrfToken := some "", createdPostIds := [] } :=
  c10_session_startup_non200 listResp500 (by decide)

end FypDjango
